import Mathlib

/-!
Verification of the Smart Helpdesk turn-processing pipeline.

The development shallowly embeds the Python sources:
  main.py              (process_query_ai, chat_endpoint, get_history)
  image_processing.py  (process_image)
  llm_setup.py         (get_session_history)
  schemas.py           (ChatRequest)
External collaborators (the hosted LLM, the OCR library, the on-disk
session files, the Python json module and the relevant Python string
builtins) are modelled explicitly below.
-/

namespace Helpdesk

/-! Python string builtins, modelled over the character list of a string. -/

/-- Whitespace characters removed by Python str.strip with no argument
(space, tab, newline, carriage return, vertical tab, form feed; the
non-ASCII Unicode whitespace Python also strips never occurs in this
development). -/
def pyIsSpace (c : Char) : Bool :=
  c = ' ' || c = '\t' || c = '\n' || c = '\r' || c.toNat = 11 || c.toNat = 12

/-- Models Python str.strip(): drop leading and trailing whitespace. -/
def pyStrip (s : String) : String :=
  String.mk (((s.data.dropWhile pyIsSpace).reverse.dropWhile pyIsSpace).reverse)

/-- Boolean test that the character list p is an initial segment of s. -/
def charsStart : List Char → List Char → Bool
  | _, [] => true
  | [], _ :: _ => false
  | c :: cs, p :: ps => c = p && charsStart cs ps

/-- Boolean test that the character list p is a final segment of s. -/
def charsEnd (s p : List Char) : Bool :=
  charsStart s.reverse p.reverse

/-- Models Python str.removeprefix(p): drop p from the front when present,
otherwise return the string unchanged. -/
def pyRemoveHead (s p : String) : String :=
  if charsStart s.data p.data then String.mk (s.data.drop p.data.length) else s

/-- Models Python str.removesuffix(p): drop p from the back when present,
otherwise return the string unchanged. -/
def pyRemoveTail (s p : String) : String :=
  if charsEnd s.data p.data then String.mk (s.data.take (s.data.length - p.data.length)) else s

/-- Models the Python expression s.split(",")[-1]: the segment after the
last comma, or the whole string when it has no comma. -/
def py_split_last_comma (s : String) : String :=
  String.mk (s.data.foldl (fun acc c => if c = ',' then [] else acc ++ [c]) [])

/-! JSON values and a model of Python json.loads. -/

/-- JSON values as produced by the Python json module (dicts are kept as
ordered field lists; lookup takes the last binding of a key, matching
dict overwrite semantics on duplicate keys). -/
inductive Json where
  | null
  | bool (b : Bool)
  | num (n : Int)
  | str (s : String)
  | arr (elems : List Json)
  | obj (fields : List (String × Json))

/-- Whitespace the JSON grammar allows between tokens. -/
def jsonWs (c : Char) : Bool :=
  c = ' ' || c = '\t' || c = '\n' || c = '\r'

/-- Drop leading JSON whitespace. -/
def skipWs : List Char → List Char
  | c :: cs => if jsonWs c then skipWs cs else c :: cs
  | [] => []

/-- Parse the body of a JSON string literal after its opening quote,
returning the decoded characters and the input after the closing quote.
Escapes for quote, backslash, slash, n, t and r are handled; unicode
escapes never occur in this development. -/
def parseStrChars : List Char → Option (List Char × List Char)
  | [] => none
  | '"' :: rest => some ([], rest)
  | '\\' :: e :: rest =>
      let esc : Option Char :=
        if e = '"' then some '"'
        else if e = '\\' then some '\\'
        else if e = '/' then some '/'
        else if e = 'n' then some '\n'
        else if e = 't' then some '\t'
        else if e = 'r' then some '\r'
        else none
      match esc with
      | some c => (parseStrChars rest).map (fun p => (c :: p.1, p.2))
      | none => none
  | c :: rest => (parseStrChars rest).map (fun p => (c :: p.1, p.2))

/-- Decimal digit test over the code point. -/
def isDigitCh (c : Char) : Bool :=
  48 ≤ c.toNat && c.toNat ≤ 57

/-- Split the longest digit run off the front of the input. -/
def takeDigits : List Char → List Char × List Char
  | [] => ([], [])
  | c :: cs =>
      if isDigitCh c then
        let p := takeDigits cs
        (c :: p.1, p.2)
      else ([], c :: cs)

/-- Numeric value of a digit run. -/
def digitsToNat (ds : List Char) : Nat :=
  ds.foldl (fun n c => n * 10 + (c.toNat - 48)) 0

/-- Opening brace character. -/
def lbrace : Char := Char.ofNat 123

/-- Closing brace character. -/
def rbrace : Char := Char.ofNat 125

mutual

/-- Parse one JSON value, returning it with the unconsumed input. The
fuel argument bounds nesting and is always supplied as more than the
input length, which one value per consumed character cannot exhaust.
Number literals are modelled on the integer fragment, the only one this
development evaluates. -/
def parseVal : Nat → List Char → Option (Json × List Char)
  | 0, _ => none
  | fuel + 1, cs =>
    match skipWs cs with
    | [] => none
    | c :: rest =>
      if c = 'n' then
        match rest with
        | 'u' :: 'l' :: 'l' :: r => some (Json.null, r)
        | _ => none
      else if c = 't' then
        match rest with
        | 'r' :: 'u' :: 'e' :: r => some (Json.bool true, r)
        | _ => none
      else if c = 'f' then
        match rest with
        | 'a' :: 'l' :: 's' :: 'e' :: r => some (Json.bool false, r)
        | _ => none
      else if c = '"' then
        match parseStrChars rest with
        | some (body, r) => some (Json.str (String.mk body), r)
        | none => none
      else if c = '[' then
        match skipWs rest with
        | ']' :: r => some (Json.arr [], r)
        | cs2 =>
          match parseElems fuel cs2 with
          | some (vs, r) => some (Json.arr vs, r)
          | none => none
      else if c = lbrace then
        match skipWs rest with
        | c2 :: r =>
          if c2 = rbrace then some (Json.obj [], r)
          else
            match parseFields fuel (c2 :: r) with
            | some (fs, r2) => some (Json.obj fs, r2)
            | none => none
        | [] => none
      else if c = '-' then
        match takeDigits rest with
        | ([], _) => none
        | (ds, r) => some (Json.num (-(digitsToNat ds : Int)), r)
      else if isDigitCh c then
        let p := takeDigits rest
        some (Json.num ((digitsToNat (c :: p.1) : Int)), p.2)
      else none

/-- Parse the elements of a non-empty JSON array after its opening
bracket, through the closing bracket. -/
def parseElems : Nat → List Char → Option (List Json × List Char)
  | 0, _ => none
  | fuel + 1, cs =>
    match parseVal fuel cs with
    | none => none
    | some (v, r) =>
      match skipWs r with
      | ',' :: r2 =>
        match parseElems fuel r2 with
        | some (vs, r3) => some (v :: vs, r3)
        | none => none
      | ']' :: r2 => some ([v], r2)
      | _ => none

/-- Parse the fields of a non-empty JSON object after its opening brace,
through the closing brace. -/
def parseFields : Nat → List Char → Option (List (String × Json) × List Char)
  | 0, _ => none
  | fuel + 1, cs =>
    match skipWs cs with
    | '"' :: rest =>
      match parseStrChars rest with
      | none => none
      | some (key, r) =>
        match skipWs r with
        | ':' :: r2 =>
          match parseVal fuel r2 with
          | none => none
          | some (v, r3) =>
            match skipWs r3 with
            | ',' :: r4 =>
              match parseFields fuel r4 with
              | some (fs, r5) => some ((String.mk key, v) :: fs, r5)
              | none => none
            | c :: r4 => if c = rbrace then some ([(String.mk key, v)], r4) else none
            | [] => none
        | _ => none
    | _ => none

end

/-- Models Python json.loads: parse one JSON value and require only
whitespace after it; None models a raised json.JSONDecodeError. -/
def json_loads (s : String) : Option Json :=
  match parseVal (s.data.length + 1) s.data with
  | some (v, rest) => if skipWs rest = [] then some v else none
  | none => none

/-- Last-binding lookup in an ordered field list, matching Python dict
semantics where a duplicate key overwrites the earlier value. -/
def jlookup : List (String × Json) → String → Option Json
  | [], _ => none
  | (k, v) :: rest, key =>
      match jlookup rest key with
      | some v2 => some v2
      | none => if k == key then some v else none

/-- Test for the JSON null value. -/
def Json.isNull : Json → Bool
  | Json.null => true
  | _ => false

/-- Test that an object reply carries the named field with a value other
than null; false on a missing field and on non-object values. -/
def field_populated (j : Json) (key : String) : Bool :=
  match j with
  | Json.obj fields =>
      match jlookup fields key with
      | some v => !(Json.isNull v)
      | none => false
  | _ => false

/-- Test that a reply has both its solution and its ticket fields
populated with non-null values. -/
def both_populated (j : Json) : Bool :=
  field_populated j "solution" && field_populated j "ticket"

/-- Value of the responseText field of an object reply when it is a
string, and the empty string in every other case. -/
def response_text_of (j : Json) : String :=
  match j with
  | Json.obj fields =>
      match jlookup fields "responseText" with
      | some (Json.str s) => s
      | _ => ""
  | _ => ""

/-! Data model of the session log (langchain message objects as this
application builds and reads them). -/

/-- One part of a structured human message content list: the dicts
(type text, text ...) and (type image_url, image_url (url ...)) built in
process_query_ai; `other` stands for a part dict of any other type,
which get_history skips. -/
inductive ContentPart where
  | text (s : String)
  | imageUrl (url : String)
  | other

/-- Content of a stored HumanMessage: either a plain string or a list of
typed parts (get_history normalises a plain string to a one-part list). -/
inductive HumanContent where
  | ofString (s : String)
  | ofParts (parts : List ContentPart)

/-- One stored message: a HumanMessage or an AIMessage, whose content in
this application is always a string. -/
inductive Msg where
  | human (content : HumanContent)
  | ai (content : String)

/-- Session store: the chat_sessions directory of per-session files,
as a map from session id to its ordered message log. -/
def Store := String → List Msg

/-- Read the ordered log of a session. -/
def Store.get (st : Store) (session_id : String) : List Msg := st session_id

/-- Overwrite the log of one session, leaving every other unchanged. -/
def Store.set (st : Store) (session_id : String) (msgs : List Msg) : Store :=
  fun sid => if sid = session_id then msgs else st sid

/-- Store with no session file on disk: every log reads as empty. -/
def emptyStore : Store := fun _ => []

/-- Models llm_setup.get_session_history: FileChatMessageHistory on the
session file; a missing file reads as the empty message list. -/
def get_session_history (st : Store) (session_id : String) : List Msg :=
  Store.get st session_id

/-- External collaborators of one turn: `oracle` models
main_chain.invoke on the chat_history and query inputs, returning the
raw content string of the model reply or raising; `ocr` models the
composite base64.b64decode, Image.open and pytesseract.image_to_string
call in process_image applied to the payload after the data-URI comma
split, returning the recognised text or raising. -/
structure Env where
  oracle : List Msg → String → Except Unit String
  ocr : String → Except Unit String

/-! image_processing.py -/

/-- Models image_processing.process_image: decode the base64 payload
after the last data-URI comma, run OCR, strip the result and substitute
the no-text sentinel for an empty result; any raised error is caught and
becomes the fixed error sentinel string. -/
def process_image (env : Env) (image_data : String) : String :=
  match env.ocr (py_split_last_comma image_data) with
  | Except.ok extracted_text =>
      if pyStrip extracted_text = "" then "No readable text found in screenshot."
      else pyStrip extracted_text
  | Except.error _ => "Error: Unable to process screenshot."

/-! main.py -/

/-- Fallback dict built at the top of process_query_ai and returned from
its except clause. -/
def fallback_response : Json :=
  Json.obj [("solution", Json.null), ("ticket", Json.null),
    ("responseText", Json.str "I\x27m sorry, I\x27m having trouble connecting.")]

/-- Python truthiness of an optional string argument: None and the empty
string are falsy. -/
def pyTruthy : Option String → Bool
  | none => false
  | some s => !(s == "")

/-- Query string sent to the model: the literal query (via the
`query or ""` line) or, when image_data is truthy, the f-string merging
the OCR text with the user message. -/
def effective_query (env : Env) (query : String) (image_data : Option String) : String :=
  if pyTruthy image_data then
    "SCREENSHOT OCR RESULT:\n" ++ process_image env (image_data.getD "") ++
      "\n\nUSER MESSAGE: \"" ++ query ++ "\""
  else if query == "" then "" else query

/-- Content list of the HumanMessage appended for the turn: the text
part alone, or the text part and the image_url part when image_data is
truthy. -/
def user_message_content (query : String) (image_data : Option String) : List ContentPart :=
  if pyTruthy image_data then
    [ContentPart.text query, ContentPart.imageUrl (image_data.getD "")]
  else [ContentPart.text query]

/-- Fence stripping applied to a raw model output string, the
strip-removeprefix-removesuffix-strip chain of main.py. -/
def clean_content (raw : String) : String :=
  pyStrip (pyRemoveTail (pyRemoveHead (pyStrip raw) "```json") "```")

/-- Models main.process_query_ai: load the session history, build the
effective query (running OCR when an image is attached), invoke the
model, append the human turn and the cleaned raw assistant text to the
session, and parse the cleaned text as JSON; any exception raised on the
way (oracle call, JSON parse) is caught and the fixed fallback dict
returned, with the store as mutated so far. -/
def process_query_ai (env : Env) (st : Store) (query : String) (session_id : String)
    (image_data : Option String) : Json × Store :=
  let history := get_session_history st session_id
  match env.oracle history (effective_query env query image_data) with
  | Except.error _ => (fallback_response, st)
  | Except.ok raw =>
      let content := clean_content raw
      let st1 := Store.set st session_id
        (history ++ [Msg.human (HumanContent.ofParts (user_message_content query image_data)),
                     Msg.ai content])
      match json_loads content with
      | some response_data => (response_data, st1)
      | none => (fallback_response, st1)

/-- Body of a POST /chat request, from schemas.ChatRequest. -/
structure ChatRequest where
  message : String
  session_id : String
  image_data : Option String

/-- Models the chat_endpoint handler for POST /chat: it returns
process_query_ai on the request fields. -/
def chat_endpoint (env : Env) (st : Store) (request : ChatRequest) : Json × Store :=
  process_query_ai env st request.message request.session_id request.image_data

/-! GET /chat/history/(session_id) -/

/-- One entry of the history reply: the dict (type human, content
(typed part list)) or (type ai, content (parsed JSON)). -/
inductive HistoryMsg where
  | human (content : List ContentPart)
  | ai (content : Json)

/-- Placeholder dict substituted for an assistant turn whose stored text
does not parse as JSON. -/
def error_placeholder : Json :=
  Json.obj [("responseText", Json.str "Error: Could not load this message.")]

/-- Content list a stored human message renders as, before the part
loop: the list itself, or a one-text-part list for plain string content. -/
def content_list_of : HumanContent → List ContentPart
  | HumanContent.ofParts ps => ps
  | HumanContent.ofString s => [ContentPart.text s]

/-- Inner loop of get_history over the parts of a human message: text
and image_url parts are re-emitted, any other part is skipped. -/
def render_human_parts (content_list : List ContentPart) : List ContentPart :=
  content_list.foldl (fun content_data part =>
    match part with
    | ContentPart.text t => content_data ++ [ContentPart.text t]
    | ContentPart.imageUrl u => content_data ++ [ContentPart.imageUrl u]
    | ContentPart.other => content_data) []

/-- Models the get_history handler for GET /chat/history/(session_id):
the loop over the stored log, rendering each human message through the
part loop and each assistant message as its cleaned content parsed as
JSON, with the placeholder dict when that parse raises. -/
def get_history (st : Store) (session_id : String) : List HistoryMsg :=
  let history := get_session_history st session_id
  history.foldl (fun messages msg =>
    match msg with
    | Msg.human c => messages ++ [HistoryMsg.human (render_human_parts (content_list_of c))]
    | Msg.ai s =>
        match json_loads (clean_content s) with
        | some parsed_content => messages ++ [HistoryMsg.ai parsed_content]
        | none => messages ++ [HistoryMsg.ai error_placeholder]) []

/-- Rendering of one stored message as one history entry (the body of
the get_history loop, factored for reasoning). -/
def render_msg : Msg → HistoryMsg
  | Msg.human c => HistoryMsg.human (render_human_parts (content_list_of c))
  | Msg.ai s =>
      match json_loads (clean_content s) with
      | some parsed_content => HistoryMsg.ai parsed_content
      | none => HistoryMsg.ai error_placeholder

/-! Concrete collaborator environments and stores used to evaluate the
pipeline on explicit inputs. -/

/-- Environment in which both the model call and the OCR call raise. -/
def envErr : Env :=
  { oracle := fun _ _ => Except.error (), ocr := fun _ => Except.error () }

/-- Environment in which OCR raises and the model replies with a plain
clarifying-question JSON object (solution and ticket both null). -/
def envNullReply : Env :=
  { oracle := fun _ _ =>
      Except.ok "\x7b\"solution\": null, \"ticket\": null, \"responseText\": \"hello\"\x7d",
    ocr := fun _ => Except.error () }

/-- Environment in which the model replies with a fenced JSON object. -/
def envFenced : Env :=
  { oracle := fun _ _ => Except.ok "```json\n\x7b\"responseText\": \"ok\"\x7d\n```",
    ocr := fun _ => Except.error () }

/-- Environment in which the model replies with a JSON object whose
solution and ticket fields are both populated. -/
def envBoth : Env :=
  { oracle := fun _ _ =>
      Except.ok "\x7b\"solution\": [\"Restart the PC\"], \"ticket\": \x7b\"title\": \"T\"\x7d, \"responseText\": \"done\"\x7d",
    ocr := fun _ => Except.error () }

/-- Environment in which the model replies with text that is not JSON. -/
def envGarbage : Env :=
  { oracle := fun _ _ => Except.ok "I cannot answer in JSON", ocr := fun _ => Except.error () }

/-- Environment in which OCR succeeds with a whitespace-only result. -/
def envBlankOcr : Env :=
  { oracle := fun _ _ => Except.error (), ocr := fun _ => Except.ok " " }

/-- Environment in which OCR succeeds with padded text. -/
def envHelloOcr : Env :=
  { oracle := fun _ _ => Except.error (), ocr := fun _ => Except.ok "  hello  " }

/-- Store holding one assistant turn whose text is not JSON. -/
def storeBadAi : Store := Store.set emptyStore "s1" [Msg.ai "oops"]

/-! Helper lemmas on the embedded functions. -/

/-- Body of the get_history loop as an append of one rendered entry. -/
theorem get_history_body (messages : List HistoryMsg) (msg : Msg) :
    (match msg with
      | Msg.human c => messages ++ [HistoryMsg.human (render_human_parts (content_list_of c))]
      | Msg.ai s =>
          match json_loads (clean_content s) with
          | some parsed_content => messages ++ [HistoryMsg.ai parsed_content]
          | none => messages ++ [HistoryMsg.ai error_placeholder])
      = messages ++ [render_msg msg] := by
  cases msg with
  | human c => rfl
  | ai s =>
      rcases h : json_loads (clean_content s) with _ | v <;> simp [render_msg, h]

/-- Loop of get_history over any log and accumulator, as a map. -/
theorem get_history_loop (l : List Msg) :
    ∀ init : List HistoryMsg,
      l.foldl (fun messages msg =>
        match msg with
        | Msg.human c => messages ++ [HistoryMsg.human (render_human_parts (content_list_of c))]
        | Msg.ai s =>
            match json_loads (clean_content s) with
            | some parsed_content => messages ++ [HistoryMsg.ai parsed_content]
            | none => messages ++ [HistoryMsg.ai error_placeholder]) init
      = init ++ l.map render_msg := by
  induction l with
  | nil => intro init; simp
  | cons msg rest ih =>
      intro init
      rw [List.foldl_cons, get_history_body init msg, ih, List.map_cons]
      simp

/-- History endpoint output is the stored log rendered entrywise. -/
theorem get_history_eq_map (st : Store) (session_id : String) :
    get_history st session_id = (get_session_history st session_id).map render_msg := by
  have h := get_history_loop (get_session_history st session_id) []
  simpa [get_history] using h

/-- Reduction of process_query_ai when the model call raises: the
fallback dict is returned and the store is left untouched. -/
theorem process_query_ai_oracle_error (env : Env) (st : Store) (query session_id : String)
    (image_data : Option String) (e : Unit)
    (h : env.oracle (get_session_history st session_id)
        (effective_query env query image_data) = Except.error e) :
    process_query_ai env st query session_id image_data = (fallback_response, st) := by
  simp only [process_query_ai]
  rw [h]

/-- Reduction of process_query_ai when the model call returns raw text:
the human turn and the cleaned text are appended, and the reply is the
parsed JSON or, when parsing raises, the fallback dict. -/
theorem process_query_ai_oracle_ok (env : Env) (st : Store) (query session_id : String)
    (image_data : Option String) (raw : String)
    (h : env.oracle (get_session_history st session_id)
        (effective_query env query image_data) = Except.ok raw) :
    process_query_ai env st query session_id image_data
      = ((match json_loads (clean_content raw) with
          | some response_data => response_data
          | none => fallback_response),
         Store.set st session_id (get_session_history st session_id
           ++ [Msg.human (HumanContent.ofParts (user_message_content query image_data)),
               Msg.ai (clean_content raw)])) := by
  simp only [process_query_ai]
  rw [h]
  rcases hj : json_loads (clean_content raw) with _ | v <;> simp [hj]

/-- Reading back the session just overwritten returns the new log. -/
theorem get_session_history_set (st : Store) (session_id : String) (msgs : List Msg) :
    get_session_history (Store.set st session_id msgs) session_id = msgs := by
  simp [get_session_history, Store.get, Store.set]

/-- Indexing commutes with List.map. -/
theorem map_get? {α β : Type} (f : α → β) :
    ∀ (l : List α) (i : Nat), (l.map f).get? i = (l.get? i).map f := by
  intro l
  induction l with
  | nil => intro i; cases i <;> rfl
  | cons a as ih =>
      intro i
      cases i with
      | zero => rfl
      | succ j => simp [ih j]

/-! Claim theorems. -/

/-- C1, counterexample: an image decode failure alone does not make the
orchestrator return the fixed fallback reply. With an environment whose
OCR call raises but whose model call succeeds with a parseable object,
process_query_ai returns that object, not the fallback. -/
theorem C1_counterexample :
    envNullReply.ocr (py_split_last_comma "img") = Except.error ()
    ∧ (process_query_ai envNullReply emptyStore "q" "s1" (some "img")).1 ≠ fallback_response := by
  refine ⟨rfl, fun h => absurd (congrArg response_text_of h) ?_⟩
  decide

/-- C1, amended: when the model call raises, or its output fails to
parse as JSON, process_query_ai returns exactly the fixed fallback reply
(no exception reaches the caller); an image decode failure alone does
not produce the fallback — the turn proceeds and a successful model
reply is returned parsed. -/
theorem C1_fallback_on_failure (env : Env) (st : Store) (query session_id : String)
    (image_data : Option String) :
    (∀ e, env.oracle (get_session_history st session_id)
        (effective_query env query image_data) = Except.error e →
      (process_query_ai env st query session_id image_data).1 = fallback_response)
    ∧ (∀ raw, env.oracle (get_session_history st session_id)
        (effective_query env query image_data) = Except.ok raw →
      json_loads (clean_content raw) = none →
      (process_query_ai env st query session_id image_data).1 = fallback_response)
    ∧ (∀ e raw v, env.ocr (py_split_last_comma (image_data.getD "")) = Except.error e →
      env.oracle (get_session_history st session_id)
        (effective_query env query image_data) = Except.ok raw →
      json_loads (clean_content raw) = some v →
      (process_query_ai env st query session_id image_data).1 = v) := by
  refine ⟨fun e he => ?_, fun raw hr hp => ?_, fun e raw v _ hr hp => ?_⟩
  · rw [process_query_ai_oracle_error env st query session_id image_data e he]
  · rw [process_query_ai_oracle_ok env st query session_id image_data raw hr]
    simp [hp]
  · rw [process_query_ai_oracle_ok env st query session_id image_data raw hr]
    simp [hp]

/-- C1, witness: the three failure and degradation modes evaluated on
concrete environments. -/
theorem C1_fallback_on_failure_witness :
    (process_query_ai envErr emptyStore "hi" "s1" none).1 = fallback_response
    ∧ (process_query_ai envGarbage emptyStore "hi" "s1" none).1 = fallback_response
    ∧ (process_query_ai envNullReply emptyStore "q" "s1" (some "img")).1
        = Json.obj [("solution", Json.null), ("ticket", Json.null),
            ("responseText", Json.str "hello")] :=
  ⟨(C1_fallback_on_failure envErr emptyStore "hi" "s1" none).1 () rfl,
   (C1_fallback_on_failure envGarbage emptyStore "hi" "s1" none).2.1
     "I cannot answer in JSON" rfl rfl,
   (C1_fallback_on_failure envNullReply emptyStore "q" "s1" (some "img")).2.2 ()
     "\x7b\"solution\": null, \"ticket\": null, \"responseText\": \"hello\"\x7d"
     (Json.obj [("solution", Json.null), ("ticket", Json.null),
       ("responseText", Json.str "hello")]) rfl rfl rfl⟩

/-- C2: the Response Coercer strips the leading literal json code-fence
marker and the trailing fence marker with surrounding whitespace, then
parses the remainder as JSON; on parse success process_query_ai returns
exactly the parsed object. -/
theorem C2_coercer_success (env : Env) (st : Store) (query session_id : String)
    (image_data : Option String) (raw : String) (v : Json)
    (hor : env.oracle (get_session_history st session_id)
        (effective_query env query image_data) = Except.ok raw)
    (hp : json_loads (clean_content raw) = some v) :
    clean_content raw
        = pyStrip (pyRemoveTail (pyRemoveHead (pyStrip raw) "```json") "```")
    ∧ (process_query_ai env st query session_id image_data).1 = v := by
  refine ⟨rfl, ?_⟩
  rw [process_query_ai_oracle_ok env st query session_id image_data raw hor]
  simp [hp]

/-- C2, witness: a fenced model reply evaluated concretely. -/
theorem C2_coercer_success_witness :
    clean_content "```json\n\x7b\"responseText\": \"ok\"\x7d\n```"
        = pyStrip (pyRemoveTail (pyRemoveHead
            (pyStrip "```json\n\x7b\"responseText\": \"ok\"\x7d\n```") "```json") "```")
    ∧ (process_query_ai envFenced emptyStore "pwd reset" "s1" none).1
        = Json.obj [("responseText", Json.str "ok")] :=
  C2_coercer_success envFenced emptyStore "pwd reset" "s1" none
    "```json\n\x7b\"responseText\": \"ok\"\x7d\n```"
    (Json.obj [("responseText", Json.str "ok")]) rfl rfl

/-- C3, counterexample: nothing enforces the mutual exclusivity of
solution and ticket. A successful turn whose model output populates both
fields returns a reply with both non-null. -/
theorem C3_counterexample :
    (process_query_ai envBoth emptyStore "pc broken" "s1" none).1
      = Json.obj [("solution", Json.arr [Json.str "Restart the PC"]),
          ("ticket", Json.obj [("title", Json.str "T")]),
          ("responseText", Json.str "done")]
    ∧ both_populated (process_query_ai envBoth emptyStore "pc broken" "s1" none).1 = true :=
  ⟨rfl, rfl⟩

/-- C3, amended: the reply of a successful turn is exactly the parsed
model output, so solution and ticket are never both non-null only when
the parsed model output itself keeps them mutually exclusive; the code
does not enforce the invariant. -/
theorem C3_exclusivity_conditional (env : Env) (st : Store) (query session_id : String)
    (image_data : Option String) (raw : String) (v : Json)
    (hor : env.oracle (get_session_history st session_id)
        (effective_query env query image_data) = Except.ok raw)
    (hp : json_loads (clean_content raw) = some v)
    (hv : both_populated v = false) :
    (process_query_ai env st query session_id image_data).1 = v
    ∧ both_populated (process_query_ai env st query session_id image_data).1 = false := by
  have h1 : (process_query_ai env st query session_id image_data).1 = v := by
    rw [process_query_ai_oracle_ok env st query session_id image_data raw hor]
    simp [hp]
  exact ⟨h1, by rw [h1]; exact hv⟩

/-- C3, witness: a clarifying-question reply with both fields null. -/
theorem C3_exclusivity_conditional_witness :
    (process_query_ai envNullReply emptyStore "q" "s1" none).1
      = Json.obj [("solution", Json.null), ("ticket", Json.null),
          ("responseText", Json.str "hello")]
    ∧ both_populated (process_query_ai envNullReply emptyStore "q" "s1" none).1 = false :=
  C3_exclusivity_conditional envNullReply emptyStore "q" "s1" none
    "\x7b\"solution\": null, \"ticket\": null, \"responseText\": \"hello\"\x7d"
    (Json.obj [("solution", Json.null), ("ticket", Json.null),
      ("responseText", Json.str "hello")]) rfl rfl rfl

/-- C4, counterexample: when the model call raises, the appends are
never reached, so the session log grows by zero turns, not by one human
turn as claimed: on a fresh session it stays empty. -/
theorem C4_counterexample :
    envErr.oracle [] "q" = Except.error ()
    ∧ (process_query_ai envErr emptyStore "q" "s1" none).1 = fallback_response
    ∧ (Store.get (process_query_ai envErr emptyStore "q" "s1" none).2 "s1").length = 0
    ∧ ¬ (Store.get (process_query_ai envErr emptyStore "q" "s1" none).2 "s1").length
          = (Store.get emptyStore "s1").length + 1 := by
  exact ⟨rfl, rfl, rfl, by decide⟩

/-- C4, amended: if the model call raises for a given input, the request
returns the fixed fallback reply and leaves the session log unchanged
(no human and no assistant turn is appended), and repeating the
identical request returns the identical fallback reply again. -/
theorem C4_fallback_idempotent (env : Env) (st : Store) (query session_id : String)
    (image_data : Option String) (e : Unit)
    (h : env.oracle (get_session_history st session_id)
        (effective_query env query image_data) = Except.error e) :
    process_query_ai env st query session_id image_data = (fallback_response, st)
    ∧ process_query_ai env (process_query_ai env st query session_id image_data).2
        query session_id image_data = (fallback_response, st)
    ∧ Store.get (process_query_ai env st query session_id image_data).2 session_id
        = Store.get st session_id := by
  have h1 := process_query_ai_oracle_error env st query session_id image_data e h
  refine ⟨h1, ?_, by rw [h1]⟩
  rw [h1]
  exact h1

/-- C4, witness: the unreachable-oracle turn evaluated concretely. -/
theorem C4_fallback_idempotent_witness :
    process_query_ai envErr emptyStore "again" "s1" none = (fallback_response, emptyStore)
    ∧ process_query_ai envErr (process_query_ai envErr emptyStore "again" "s1" none).2
        "again" "s1" none = (fallback_response, emptyStore)
    ∧ Store.get (process_query_ai envErr emptyStore "again" "s1" none).2 "s1"
        = Store.get emptyStore "s1" :=
  C4_fallback_idempotent envErr emptyStore "again" "s1" none () rfl

/-- C5: when the model call succeeds but the JSON parse of its cleaned
output raises, the session is still mutated — the human turn and the
fence-stripped assistant text are appended before the parse is attempted
— while the caller receives the fallback reply. -/
theorem C5_persist_on_parse_failure (env : Env) (st : Store) (query session_id : String)
    (image_data : Option String) (raw : String)
    (hor : env.oracle (get_session_history st session_id)
        (effective_query env query image_data) = Except.ok raw)
    (hp : json_loads (clean_content raw) = none) :
    (process_query_ai env st query session_id image_data).1 = fallback_response
    ∧ (process_query_ai env st query session_id image_data).2
        = Store.set st session_id (get_session_history st session_id
            ++ [Msg.human (HumanContent.ofParts (user_message_content query image_data)),
                Msg.ai (clean_content raw)]) := by
  rw [process_query_ai_oracle_ok env st query session_id image_data raw hor]
  simp [hp]

/-- C5, witness: a non-JSON model reply evaluated concretely. -/
theorem C5_persist_on_parse_failure_witness :
    (process_query_ai envGarbage emptyStore "help" "s1" none).1 = fallback_response
    ∧ (process_query_ai envGarbage emptyStore "help" "s1" none).2
        = Store.set emptyStore "s1" (get_session_history emptyStore "s1"
            ++ [Msg.human (HumanContent.ofParts (user_message_content "help" none)),
                Msg.ai (clean_content "I cannot answer in JSON")]) :=
  C5_persist_on_parse_failure envGarbage emptyStore "help" "s1" none
    "I cannot answer in JSON" rfl rfl

/-- C6: a turn appended through POST /chat appears in the next
GET /chat/history reply for that session, after the previous entries and
in append order, with the image reference of the human turn preserved as
its image_url part. -/
theorem C6_roundtrip (env : Env) (st : Store) (query session_id img raw : String)
    (himg : img ≠ "")
    (hor : env.oracle (get_session_history st session_id)
        (effective_query env query (some img)) = Except.ok raw) :
    get_history (chat_endpoint env st (ChatRequest.mk query session_id (some img))).2 session_id
      = get_history st session_id
        ++ [HistoryMsg.human [ContentPart.text query, ContentPart.imageUrl img],
            render_msg (Msg.ai (clean_content raw))] := by
  have hb : (img == "") = false := beq_eq_false_iff_ne.mpr himg
  have h2 : (process_query_ai env st query session_id (some img)).2
      = Store.set st session_id (get_session_history st session_id
          ++ [Msg.human (HumanContent.ofParts (user_message_content query (some img))),
              Msg.ai (clean_content raw)]) := by
    rw [process_query_ai_oracle_ok env st query session_id (some img) raw hor]
  show get_history (process_query_ai env st query session_id (some img)).2 session_id = _
  rw [h2, get_history_eq_map, get_history_eq_map, get_session_history_set,
    List.map_append]
  congr 1
  simp [render_msg, user_message_content, pyTruthy, hb, content_list_of, render_human_parts]

/-- C6, witness: a turn with an attached screenshot evaluated
concretely. -/
theorem C6_roundtrip_witness :
    get_history (chat_endpoint envFenced emptyStore
        (ChatRequest.mk "broken screen" "s1" (some "data:image/png;base64,AAAA"))).2 "s1"
      = get_history emptyStore "s1"
        ++ [HistoryMsg.human [ContentPart.text "broken screen",
              ContentPart.imageUrl "data:image/png;base64,AAAA"],
            render_msg (Msg.ai (clean_content "```json\n\x7b\"responseText\": \"ok\"\x7d\n```"))] :=
  C6_roundtrip envFenced emptyStore "broken screen" "s1" "data:image/png;base64,AAAA"
    "```json\n\x7b\"responseText\": \"ok\"\x7d\n```" (by decide) rfl

/-- C7: a session id with no stored log (no prior chat call wrote a
session file) yields an empty message list from the history endpoint. -/
theorem C7_fresh_history_empty (st : Store) (session_id : String)
    (h : Store.get st session_id = []) :
    get_history st session_id = [] := by
  rw [get_history_eq_map]
  simp [get_session_history, h]

/-- C7, witness: the empty store evaluated on a fresh id. -/
theorem C7_fresh_history_empty_witness :
    get_history emptyStore "never-seen" = [] :=
  C7_fresh_history_empty emptyStore "never-seen" rfl

/-- C8: when the image decode or OCR call raises, the Image Analyzer
returns the fixed error sentinel string instead of propagating, and the
enclosing turn behaves exactly as a turn whose OCR produced that
sentinel text — it completes without raising. -/
theorem C8_image_error_sentinel (env : Env) (st : Store) (query session_id img : String)
    (e : Unit) (h : env.ocr (py_split_last_comma img) = Except.error e) :
    process_image env img = "Error: Unable to process screenshot."
    ∧ process_query_ai env st query session_id (some img)
        = process_query_ai
            { oracle := env.oracle,
              ocr := fun _ => Except.ok "Error: Unable to process screenshot." }
            st query session_id (some img) := by
  have h1 : process_image env img = "Error: Unable to process screenshot." := by
    simp [process_image, h]
  have h2 : process_image
      { oracle := env.oracle,
        ocr := fun _ => Except.ok "Error: Unable to process screenshot." } img
      = "Error: Unable to process screenshot." := rfl
  refine ⟨h1, ?_⟩
  have heq : effective_query env query (some img)
      = effective_query
          { oracle := env.oracle,
            ocr := fun _ => Except.ok "Error: Unable to process screenshot." }
          query (some img) := by
    simp only [effective_query, Option.getD_some]
    rw [h1, h2]
  simp only [process_query_ai]
  rw [heq]

/-- C8, witness: a malformed image evaluated concretely. -/
theorem C8_image_error_sentinel_witness :
    process_image envErr "bad-image" = "Error: Unable to process screenshot."
    ∧ process_query_ai envErr emptyStore "q" "s1" (some "bad-image")
        = process_query_ai
            { oracle := envErr.oracle,
              ocr := fun _ => Except.ok "Error: Unable to process screenshot." }
            emptyStore "q" "s1" (some "bad-image") :=
  C8_image_error_sentinel envErr emptyStore "q" "s1" "bad-image" () rfl

/-- C9, counterexample: a whitespace-only OCR result is a non-empty
output, yet the Image Analyzer returns the no-text sentinel, so the
sentinel does not appear exactly when the OCR output is empty. -/
theorem C9_counterexample :
    envBlankOcr.ocr (py_split_last_comma "img") = Except.ok " "
    ∧ " " ≠ ""
    ∧ process_image envBlankOcr "img" = "No readable text found in screenshot." :=
  ⟨rfl, by decide, rfl⟩

/-- C9, amended: on a successful decode the Image Analyzer returns the
recognised text stripped of surrounding whitespace, and the no-text
sentinel exactly when the recognised text is empty after stripping. -/
theorem C9_ocr_text (env : Env) (img t : String)
    (h : env.ocr (py_split_last_comma img) = Except.ok t) :
    process_image env img
      = (if pyStrip t = "" then "No readable text found in screenshot." else pyStrip t) := by
  simp [process_image, h]

/-- C9, witness: padded OCR text evaluated concretely. -/
theorem C9_ocr_text_witness :
    process_image envHelloOcr "img"
      = (if pyStrip "  hello  " = "" then "No readable text found in screenshot."
         else pyStrip "  hello  ") :=
  C9_ocr_text envHelloOcr "img" "  hello  " rfl

/-- C10: the history endpoint renders every stored assistant turn at its
own position as the parsed JSON of its cleaned text, or as the fixed
placeholder object when that parse raises, and still serves one entry
per stored message, so one bad turn never fails the whole request. -/
theorem C10_history_ai_rendering (st : Store) (session_id : String) (i : Nat) (s : String)
    (h : (get_session_history st session_id).get? i = some (Msg.ai s)) :
    (get_history st session_id).length = (get_session_history st session_id).length
    ∧ (get_history st session_id).get? i
        = some (match json_loads (clean_content s) with
            | some parsed_content => HistoryMsg.ai parsed_content
            | none => HistoryMsg.ai error_placeholder) := by
  constructor
  · rw [get_history_eq_map, List.length_map]
  · rw [get_history_eq_map, map_get?, h]
    rfl

/-- C10, witness: a stored assistant turn whose text is not JSON,
rendered as the placeholder. -/
theorem C10_history_ai_rendering_witness :
    (get_history storeBadAi "s1").length = (get_session_history storeBadAi "s1").length
    ∧ (get_history storeBadAi "s1").get? 0
        = some (match json_loads (clean_content "oops") with
            | some parsed_content => HistoryMsg.ai parsed_content
            | none => HistoryMsg.ai error_placeholder) :=
  C10_history_ai_rendering storeBadAi "s1" 0 "oops" rfl

end Helpdesk

